import Mathlib

/-!
Shallow embedding of the AIHorde LibreOffice extension
(src/StableHordeForLibreOffice.py) for checking its natural-language
specification.  Pure fragments of the Python code are translated into
Lean functions; the stateful frontend (the `LibreOfficeInteraction`
observer) is modelled by explicit state records and state-passing
functions.  Constants imported from the `aihordeclient` module (which is
not part of this repository's sources) are kept abstract as parameters.
-/

namespace AiHorde

/-- Python values that flow through the frontend property store:
`get_frontend_property` is typed `Union[str, bool, None]` in the source. -/
inductive PyVal where
  | none : PyVal
  | bool : Bool → PyVal
  | str : String → PyVal
deriving DecidableEq, Repr

/-- Python `str(value)` on the values of interest. -/
def pyStr : PyVal → String
  | PyVal.none => "None"
  | PyVal.bool true => "True"
  | PyVal.bool false => "False"
  | PyVal.str s => s

/-- The user-defined property container of the document
(`getDocumentProperties().getUserDefinedProperties()`), modelled as a
partial map from property names to the stored strings:
`set_frontend_property` only ever stores strings. -/
def PropStore : Type := String → Option String

/-- `LibreOfficeInteraction.get_frontend_property` (lines 1967-1981):
`getPropertyValue` raises `UnknownPropertyException` when the name is
absent, and the handler returns `False`; otherwise the stored value is
returned. -/
def get_frontend_property (props : PropStore) (name : String) : PyVal :=
  match props name with
  | Option.some v => PyVal.str v
  | Option.none => PyVal.bool false

/-- `LibreOfficeInteraction.set_frontend_property` (lines 1991-2007):
`str_value` is `""` for `None` and `str(value)` otherwise; `addProperty`
raises `PropertyExistException` when the name exists and the handler
falls back to `setPropertyValue`, so either way the store maps `name`
to `str_value` afterwards. -/
def set_frontend_property (props : PropStore) (name : String) (value : PyVal) : PropStore :=
  let str_value := if value = PyVal.none then "" else pyStr value
  fun n => if n = name then Option.some str_value else props n

/-- The string that `set_frontend_property` actually stores for a value. -/
def stored_string (value : PyVal) : String :=
  if value = PyVal.none then "" else pyStr value

/-- An empty property store: no property has been set this session. -/
def emptyProps : PropStore := fun _ => Option.none

/-- `LibreOfficeInteraction.show_ui` model selection (lines 1219-1226):
`if self.default_model not in self.model_index: self.default_model =
DEFAULT_MODEL`, then the combo box text is set to `self.default_model`.
`model_index` is the dictionary of loaded model names; only its key set
matters here.  `DEFAULT_MODEL` is imported from `aihordeclient` (not in
this repository's sources) and is therefore a parameter. -/
def show_ui_selected_model (DEFAULT_MODEL : String) (model_index : List String)
    (default_model : String) : String :=
  if default_model ∈ model_index then default_model else DEFAULT_MODEL

/-- The api_key written by `LibreOfficeInteraction.get_options_from_dialog`
(line 1521): `self.ctrl_token.Text or ANONYMOUS_KEY` — Python `or`
yields the right operand exactly when the text is the empty (falsy)
string.  `ANONYMOUS_KEY` is imported from `aihordeclient` and kept as a
parameter. -/
def get_options_api_key (ANONYMOUS_KEY token_text : String) : String :=
  if token_text = "" then ANONYMOUS_KEY else token_text

/-- The token field text after `LibreOfficeInteraction.prepare_options`
(lines 1669-1673): the field is first set to the stored key and then
blanked when the key equals the anonymous sentinel. -/
def prepare_options_token_text (ANONYMOUS_KEY api_key : String) : String :=
  if api_key = ANONYMOUS_KEY then "" else api_key

/-- The dialog fields read and written by
`LibreOfficeInteraction.validate_fields`.  The numeric fields hold whole
pixel counts, modelled as naturals. -/
structure DialogState where
  in_progress : Bool
  prompt_text : String
  width : Nat
  height : Nat
  ok_enabled : Bool
  trans_enabled : Bool
deriving DecidableEq, Repr

/-- `LibreOfficeInteraction.validate_fields` (lines 1363-1371): returns
unchanged while a generation is in progress; otherwise enables the
Process and translate buttons exactly when the prompt is longer than
`MIN_PROMPT_LENGTH` and `width * height <= MAX_MP`.  The two constants
are imported from `aihordeclient` and kept as parameters. -/
def validate_fields (MIN_PROMPT_LENGTH MAX_MP : Nat) (s : DialogState) : DialogState :=
  if s.in_progress then s
  else
    let enable_ok :=
      decide (MIN_PROMPT_LENGTH < s.prompt_text.length) &&
        decide (s.width * s.height ≤ MAX_MP)
    { s with ok_enabled := enable_ok, trans_enabled := enable_ok }

/-- The workflow-relevant state of the dialog controller for the
Process-button path of `actionPerformed`: the `in_progress` flag plus an
instrumentation of `start_processing` (how many workflows were started,
and the value `in_progress` had when the last one began). -/
structure UIState where
  in_progress : Bool
  workflows_started : Nat
  in_progress_at_last_start : Bool
deriving DecidableEq, Repr

/-- `LibreOfficeInteraction.start_processing` (lines 1529-1577),
abstracted to its workflow effect: it launches exactly one generation
workflow.  The model additionally records the `in_progress` flag it
observes when it begins. -/
def start_processing (s : UIState) : UIState :=
  { s with
    workflows_started := s.workflows_started + 1,
    in_progress_at_last_start := s.in_progress }

/-- The `btn_ok_OnClick` branch of
`LibreOfficeInteraction.actionPerformed` (lines 1473-1478): if
`self.in_progress` the handler returns at once; otherwise it sets
`self.in_progress = True` and then calls `self.start_processing()`. -/
def actionPerformed_btn_ok (s : UIState) : UIState :=
  if s.in_progress then s
  else start_processing { s with in_progress := true }

/-- The frontend (observer) state touched by `update_status`,
`set_finished` and `show_error`: the stored progress `self.progress`,
the progress label and meter widgets, the dialog messages displayed so
far (message, url, title), whether the token field grabbed focus, and
the fields `show_error` reads (`self.generated_url` and
`self.options["api_key"]`).  Progress values are Python floats carrying
exact decimal amounts; they are modelled as rationals. -/
structure FrontendState where
  progress : ℚ
  progress_label : String
  progress_meter : ℚ
  shown_messages : List (String × String × String)
  token_focused : Bool
  generated_url : String
  options_api_key : String
deriving DecidableEq, Repr

/-- `LibreOfficeInteraction.update_status` (lines 1712-1719):
`if progress: self.progress = progress` (a float is truthy exactly when
non-zero), then the label is set to `text` and the meter to
`self.progress`. -/
def update_status (s : FrontendState) (text : String) (progress : ℚ) : FrontendState :=
  let s1 := if progress = 0 then s else { s with progress := progress }
  { s1 with progress_label := text, progress_meter := s1.progress }

/-- `LibreOfficeInteraction.set_finished` (lines 1721-1726): clears the
progress label and sets the meter to 100. -/
def set_finished (s : FrontendState) : FrontendState :=
  { s with progress_label := "", progress_meter := 100 }

/-- `LibreOfficeInteraction.show_error` (lines 1749-1766): defaults the
title, falls back to `self.generated_url` when no url is given, shows
the warning box, focuses the token field for anonymous users, and ends
with `self.set_finished()`.  `ANONYMOUS_KEY` is imported from
`aihordeclient` and kept as a parameter. -/
def show_error (ANONYMOUS_KEY : String) (s : FrontendState)
    (message url title : String) : FrontendState :=
  let title1 := if title = "" then "Watch out!" else title
  let url1 := if url = "" && s.generated_url ≠ "" then s.generated_url else url
  let s1 := { s with shown_messages := s.shown_messages ++ [(message, url1, title1)] }
  let s2 :=
    if s1.options_api_key = ANONYMOUS_KEY then { s1 with token_focused := true } else s1
  set_finished s2

/-- Python exceptions relevant to `insert_image`. -/
inductive PyError where
  | attributeError : String → PyError
deriving DecidableEq, Repr

/-- Attribute lookup on the builtin function object `os.unlink`: a
builtin function has no attribute named by user code, so any such access
raises `AttributeError`. -/
def os_unlink_getattr (attr : String) : Except PyError Unit :=
  Except.error (PyError.attributeError attr)

/-- The document-and-disk state affected by the tail of
`LibreOfficeInteraction.insert_image`. -/
structure DocState where
  files_on_disk : List String
  inserted_images : List String
  gallery : List String
deriving DecidableEq, Repr

/-- Effect of `LibreOfficeInteraction.insert_image` (lines 1955-1965) on
the document and the disk: optionally add to the gallery, insert the
image into the document, then — only when `add_to_gallery` is false —
execute the statement `os.unlink.img_path`, which is an attribute access
on `os.unlink` (not a call), so it raises `AttributeError` and no file
is ever deleted; the returned error is the exception that escapes.  The
per-document insertion variants are out of scope and collapse to
recording the inserted image. -/
def insert_image (doc : DocState) (img_path : String) (add_to_gallery : Bool) :
    DocState × Option PyError :=
  let doc1 :=
    if add_to_gallery then { doc with gallery := doc.gallery ++ [img_path] } else doc
  let doc2 := { doc1 with inserted_images := doc1.inserted_images ++ [img_path] }
  if add_to_gallery then (doc2, Option.none)
  else
    match os_unlink_getattr "img_path" with
    | Except.error e => (doc2, Option.some e)
    | Except.ok _ => (doc2, Option.none)

/-- Modelled from the spec: `CHECK_WAIT = 5` seconds, a constant of the
`aihordeclient` module, which src/StableHordeForLibreOffice.py imports
but which is not among this repository's sources. -/
def CHECK_WAIT : Nat := 5

/-- Modelled from the spec: `check_max = max_wait_minutes*60/CHECK_WAIT`
in the `aihordeclient` polling loop (module missing from the sources);
the division is exact since `CHECK_WAIT` divides 60. -/
def check_max (max_wait_minutes : Nat) : Nat :=
  max_wait_minutes * 60 / CHECK_WAIT

/-- Outcome of the polling loop, tagged with the value of the poll
counter when the loop ended. -/
inductive PollOutcome where
  | ready : Nat → PollOutcome
  | deadlineExceeded : Nat → PollOutcome
  | pending : Nat → PollOutcome
deriving DecidableEq, Repr

/-- Modelled from the spec: the `aihordeclient` polling loop (module
missing from the sources).  Each iteration queries the job status,
increments the poll counter, finishes when the remote reports done
(the success check precedes the deadline check), and raises
DeadlineExceeded when the poll counter reaches `cmax`; otherwise it
sleeps and re-polls.  The sequence of remote `done` flags is the input
list; an exhausted list leaves the job pending. -/
def poll_loop (cmax : Nat) (counter : Nat) : List Bool → PollOutcome
  | [] => PollOutcome.pending counter
  | done :: rest =>
    let counter1 := counter + 1
    if done then PollOutcome.ready counter1
    else if cmax ≤ counter1 then PollOutcome.deadlineExceeded counter1
    else poll_loop cmax counter1 rest

lemma check_max_eq (m : Nat) : check_max m = m * 12 := by
  unfold check_max CHECK_WAIT
  omega

lemma poll_loop_deadline_count (cmax : Nat) :
    ∀ (rs : List Bool) (counter c : Nat), counter < cmax →
      poll_loop cmax counter rs = PollOutcome.deadlineExceeded c → c = cmax := by
  intro rs
  induction rs with
  | nil =>
    intro counter c hlt h
    simp [poll_loop] at h
  | cons r rest ih =>
    intro counter c hlt h
    cases r with
    | true => simp [poll_loop] at h
    | false =>
      by_cases hc : cmax ≤ counter + 1
      · simp [poll_loop, hc] at h
        omega
      · simp [poll_loop, hc] at h
        exact ih (counter + 1) c (by omega) h

lemma poll_loop_all_false (cmax : Nat) :
    ∀ (rs : List Bool) (counter : Nat), counter < cmax →
      (∀ r ∈ rs, r = false) → cmax ≤ counter + rs.length →
      poll_loop cmax counter rs = PollOutcome.deadlineExceeded cmax := by
  intro rs
  induction rs with
  | nil =>
    intro counter hlt _ hlen
    simp at hlen
    omega
  | cons r rest ih =>
    intro counter hlt hall hlen
    have hr : r = false := hall r (by simp)
    subst hr
    by_cases hc : cmax ≤ counter + 1
    · have hce : counter + 1 = cmax := by omega
      simp [poll_loop, hc, hce]
    · simp only [poll_loop, Bool.false_eq_true, if_false, if_neg hc]
      exact ih (counter + 1) (by omega)
        (fun x hx => hall x (by simp [hx]))
        (by simp at hlen; omega)

/-- C1: the claim says `get_frontend_property(name)` returns `None` for a
property never set this session; the code instead returns `False` (as
its own docstring states), refuted here at the empty session store. -/
theorem get_frontend_property_unset_not_none :
    get_frontend_property emptyProps "ai_horde_checked_update" ≠ PyVal.none := by
  decide

/-- C1 (amended): for every property name that has not been set in the
current session, `get_frontend_property(name)` returns the Python value
`False`, not `None`. -/
theorem get_frontend_property_unset (props : PropStore) (name : String)
    (h : props name = Option.none) :
    get_frontend_property props name = PyVal.bool false := by
  simp [get_frontend_property, h]

/-- C1 witness: the amended theorem at the empty session store. -/
theorem get_frontend_property_unset_witness :
    emptyProps "ai_horde_checked_update" = Option.none ∧
      get_frontend_property emptyProps "ai_horde_checked_update" = PyVal.bool false :=
  ⟨rfl, get_frontend_property_unset emptyProps "ai_horde_checked_update" rfl⟩

/-- C2: the claim says set-then-get round-trips every value unchanged;
storing the boolean `True` then reading it back yields the string
`"True"`, refuting the claim. -/
theorem set_get_frontend_property_not_roundtrip :
    get_frontend_property
        (set_frontend_property emptyProps "ai_horde_checked_update" (PyVal.bool true))
        "ai_horde_checked_update" ≠ PyVal.bool true := by
  decide

/-- C2 (amended): after `set_frontend_property(name, value)`,
`get_frontend_property(name)` returns the string `str(value)` that was
stored (`""` for `None`); the round-trip returns the value unchanged
exactly for string values. -/
theorem set_get_frontend_property (props : PropStore) (name : String) (value : PyVal) :
    get_frontend_property (set_frontend_property props name value) name =
        PyVal.str (stored_string value) ∧
      ∀ s : String,
        get_frontend_property (set_frontend_property props name (PyVal.str s)) name =
          PyVal.str s := by
  constructor
  · simp [get_frontend_property, set_frontend_property, stored_string]
  · intro s
    simp [get_frontend_property, set_frontend_property, pyStr]

/-- C3: the model selected when the dialog is shown is always a member
of the loaded model list (given that the default model is among the
loaded models), and a saved model that is not among the known models is
reset to `DEFAULT_MODEL` before being displayed. -/
theorem show_ui_selected_model_mem (DEFAULT_MODEL : String) (model_index : List String)
    (default_model : String) (hdm : DEFAULT_MODEL ∈ model_index) :
    show_ui_selected_model DEFAULT_MODEL model_index default_model ∈ model_index ∧
      (default_model ∉ model_index →
        show_ui_selected_model DEFAULT_MODEL model_index default_model = DEFAULT_MODEL) := by
  by_cases h : default_model ∈ model_index <;>
    simp [show_ui_selected_model, h, hdm]

/-- C3 witness: a saved model absent from the loaded list is replaced by
the default model, which is in the list. -/
theorem show_ui_selected_model_mem_witness :
    show_ui_selected_model "sd" ["sd"] "unknown" ∈ ["sd"] ∧
      show_ui_selected_model "sd" ["sd"] "unknown" = "sd" :=
  ⟨(show_ui_selected_model_mem "sd" ["sd"] "unknown" (by decide)).1,
   (show_ui_selected_model_mem "sd" ["sd"] "unknown" (by decide)).2 (by decide)⟩

/-- C4: the empty API-key field maps to the anonymous sentinel in both
directions: `get_options_from_dialog` stores `ANONYMOUS_KEY` exactly
when the token text is empty and the token text otherwise, and
`prepare_options` displays an empty token field exactly when the stored
key is the anonymous sentinel. -/
theorem api_key_anonymous_mapping (ANONYMOUS_KEY token_text api_key : String) :
    (token_text = "" → get_options_api_key ANONYMOUS_KEY token_text = ANONYMOUS_KEY) ∧
      (token_text ≠ "" → get_options_api_key ANONYMOUS_KEY token_text = token_text) ∧
      (api_key = ANONYMOUS_KEY → prepare_options_token_text ANONYMOUS_KEY api_key = "") ∧
      (api_key ≠ ANONYMOUS_KEY →
        prepare_options_token_text ANONYMOUS_KEY api_key = api_key) := by
  refine ⟨?_, ?_, ?_, ?_⟩ <;> intro h <;>
    simp [get_options_api_key, prepare_options_token_text, h]

/-- C4 witness: the mapping at the anonymous sentinel used by AIHorde
and a concrete user key. -/
theorem api_key_anonymous_mapping_witness :
    get_options_api_key "0000000000" "" = "0000000000" ∧
      get_options_api_key "0000000000" "mykey" = "mykey" ∧
      prepare_options_token_text "0000000000" "0000000000" = "" ∧
      prepare_options_token_text "0000000000" "mykey" = "mykey" :=
  ⟨(api_key_anonymous_mapping "0000000000" "" "0000000000").1 rfl,
   (api_key_anonymous_mapping "0000000000" "mykey" "mykey").2.1 (by decide),
   (api_key_anonymous_mapping "0000000000" "mykey" "0000000000").2.2.1 rfl,
   (api_key_anonymous_mapping "0000000000" "mykey" "mykey").2.2.2 (by decide)⟩

/-- C5: `validate_fields` changes nothing while a generation is in
progress, and otherwise enables the Process (OK) action exactly when
the prompt is strictly longer than `MIN_PROMPT_LENGTH` characters and
`width * height` does not exceed `MAX_MP` pixels. -/
theorem validate_fields_spec (MIN_PROMPT_LENGTH MAX_MP : Nat) (s : DialogState) :
    (s.in_progress = true → validate_fields MIN_PROMPT_LENGTH MAX_MP s = s) ∧
      (s.in_progress = false →
        ((validate_fields MIN_PROMPT_LENGTH MAX_MP s).ok_enabled = true ↔
          (MIN_PROMPT_LENGTH < s.prompt_text.length ∧ s.width * s.height ≤ MAX_MP))) := by
  constructor
  · intro h
    simp [validate_fields, h]
  · intro h
    simp [validate_fields, h]

/-- C5 witness: a long-enough prompt within the pixel budget enables the
Process action when nothing is in progress. -/
theorem validate_fields_spec_witness :
    (validate_fields 10 4194304
        { in_progress := false, prompt_text := "a scenic mountain lake",
          width := 512, height := 512, ok_enabled := false,
          trans_enabled := false }).ok_enabled = true :=
  ((validate_fields_spec 10 4194304
      { in_progress := false, prompt_text := "a scenic mountain lake",
        width := 512, height := 512, ok_enabled := false,
        trans_enabled := false }).2 rfl).mpr (by decide)

/-- C6: a Process-button action arriving while `in_progress` is true
returns without starting a new workflow and changes nothing; otherwise
exactly one workflow is started and `start_processing` observes
`in_progress = true` when it begins. -/
theorem actionPerformed_btn_ok_spec (s : UIState) :
    (s.in_progress = true → actionPerformed_btn_ok s = s) ∧
      (s.in_progress = false →
        (actionPerformed_btn_ok s).workflows_started = s.workflows_started + 1 ∧
          (actionPerformed_btn_ok s).in_progress_at_last_start = true) := by
  constructor
  · intro h
    simp [actionPerformed_btn_ok, h]
  · intro h
    simp [actionPerformed_btn_ok, h, start_processing]

/-- C6 witness: a click during a run is a no-op; a click at rest starts
exactly one workflow with the flag already raised. -/
theorem actionPerformed_btn_ok_spec_witness :
    actionPerformed_btn_ok
        { in_progress := true, workflows_started := 3,
          in_progress_at_last_start := true } =
      { in_progress := true, workflows_started := 3,
        in_progress_at_last_start := true } ∧
      (actionPerformed_btn_ok
          { in_progress := false, workflows_started := 0,
            in_progress_at_last_start := false }).workflows_started = 1 ∧
      (actionPerformed_btn_ok
          { in_progress := false, workflows_started := 0,
            in_progress_at_last_start := false }).in_progress_at_last_start = true :=
  ⟨(actionPerformed_btn_ok_spec
      { in_progress := true, workflows_started := 3,
        in_progress_at_last_start := true }).1 rfl,
   ((actionPerformed_btn_ok_spec
      { in_progress := false, workflows_started := 0,
        in_progress_at_last_start := false }).2 rfl).1,
   ((actionPerformed_btn_ok_spec
      { in_progress := false, workflows_started := 0,
        in_progress_at_last_start := false }).2 rfl).2⟩

/-- C7: every call to `show_error` ends by invoking `set_finished`, so
after any reported error the progress label is cleared and the progress
meter reads 100. -/
theorem show_error_calls_set_finished (ANONYMOUS_KEY : String) (s : FrontendState)
    (message url title : String) :
    (∃ t, show_error ANONYMOUS_KEY s message url title = set_finished t) ∧
      (show_error ANONYMOUS_KEY s message url title).progress_label = "" ∧
      (show_error ANONYMOUS_KEY s message url title).progress_meter = 100 := by
  refine ⟨⟨_, rfl⟩, ?_, ?_⟩ <;> simp [show_error, set_finished]

/-- C9: the claim says the progress meter keeps its previous value when
`update_status` is called with progress zero; in a state where the
meter (100, as set by `set_finished`) differs from the stored progress
(50), the call resets the meter to 50, refuting the claim. -/
theorem update_status_zero_meter_changes :
    (update_status
          { progress := 50, progress_label := "", progress_meter := 100,
            shown_messages := [], token_focused := false, generated_url := "",
            options_api_key := "" } "working" 0).progress_meter = 50 ∧
      (update_status
          { progress := 50, progress_label := "", progress_meter := 100,
            shown_messages := [], token_focused := false, generated_url := "",
            options_api_key := "" } "working" 0).progress_meter ≠ 100 := by
  constructor
  · simp [update_status]
  · simp [update_status]

/-- C9 (amended): `update_status(text, progress)` always sets the label
to `text` and leaves every field other than the label, the meter and
the stored progress unchanged; with progress zero the stored progress
keeps its previous value and the meter is set to that stored progress
(not necessarily the meter's own previous reading); with non-zero
progress both are set to `progress`. -/
theorem update_status_spec (s : FrontendState) (text : String) (progress : ℚ) :
    ((update_status s text progress).progress_label = text ∧
      (update_status s text progress).shown_messages = s.shown_messages ∧
      (update_status s text progress).token_focused = s.token_focused ∧
      (update_status s text progress).generated_url = s.generated_url ∧
      (update_status s text progress).options_api_key = s.options_api_key) ∧
      (progress = 0 →
        (update_status s text progress).progress = s.progress ∧
          (update_status s text progress).progress_meter = s.progress) ∧
      (progress ≠ 0 →
        (update_status s text progress).progress = progress ∧
          (update_status s text progress).progress_meter = progress) := by
  refine ⟨?_, ?_, ?_⟩
  · by_cases h : progress = 0 <;> simp [update_status, h]
  · intro h
    simp [update_status, h]
  · intro h
    simp [update_status, h]

/-- C9 witness: the amended behavior at progress 0 and at progress 80. -/
theorem update_status_spec_witness :
    (update_status
          { progress := 50, progress_label := "", progress_meter := 50,
            shown_messages := [], token_focused := false, generated_url := "",
            options_api_key := "" } "queued" 0).progress = 50 ∧
      (update_status
          { progress := 50, progress_label := "", progress_meter := 50,
            shown_messages := [], token_focused := false, generated_url := "",
            options_api_key := "" } "generating" 80).progress_meter = 80 :=
  ⟨((update_status_spec
      { progress := 50, progress_label := "", progress_meter := 50,
        shown_messages := [], token_focused := false, generated_url := "",
        options_api_key := "" } "queued" 0).2.1 rfl).1,
   ((update_status_spec
      { progress := 50, progress_label := "", progress_meter := 50,
        shown_messages := [], token_focused := false, generated_url := "",
        options_api_key := "" } "generating" 80).2.2 (by norm_num)).2⟩

/-- C10: with `add_to_gallery` false, `insert_image` never removes the
downloaded image file: the image is inserted into the document first,
no file is deleted, and the final cleanup statement `os.unlink.img_path`
raises `AttributeError` instead of unlinking. -/
theorem insert_image_no_gallery_keeps_file (doc : DocState) (img_path : String) :
    (insert_image doc img_path false).1.files_on_disk = doc.files_on_disk ∧
      img_path ∈ (insert_image doc img_path false).1.inserted_images ∧
      (insert_image doc img_path false).2 =
        Option.some (PyError.attributeError "img_path") := by
  refine ⟨?_, ?_, ?_⟩ <;> simp [insert_image, os_unlink_getattr]

/-- C8 (spec-modelled): with `check_max = max_wait_minutes*60/CHECK_WAIT`
and `CHECK_WAIT = 5`, the polling loop raises DeadlineExceeded exactly
when the poll counter reaches `check_max` and never on any earlier
poll: every DeadlineExceeded outcome carries counter value `check_max`,
and a run that never sees `done` within `check_max` polls raises it
exactly when the counter reaches `check_max`. -/
theorem poll_loop_deadline_exactly (max_wait_minutes : Nat) (responses : List Bool)
    (hmin : 1 ≤ max_wait_minutes) :
    (∀ c, poll_loop (check_max max_wait_minutes) 0 responses =
        PollOutcome.deadlineExceeded c → c = check_max max_wait_minutes) ∧
      ((∀ r ∈ responses, r = false) →
        check_max max_wait_minutes ≤ responses.length →
        poll_loop (check_max max_wait_minutes) 0 responses =
          PollOutcome.deadlineExceeded (check_max max_wait_minutes)) := by
  have hpos : 0 < check_max max_wait_minutes := by
    rw [check_max_eq]
    omega
  constructor
  · intro c h
    exact poll_loop_deadline_count (check_max max_wait_minutes) responses 0 c hpos h
  · intro hall hlen
    exact poll_loop_all_false (check_max max_wait_minutes) responses 0 hpos hall
      (by omega)

/-- C8 witness: one minute of budget gives `check_max = 12`; twelve
polls that never report done end in DeadlineExceeded at poll 12. -/
theorem poll_loop_deadline_exactly_witness :
    1 ≤ 1 ∧
      poll_loop (check_max 1) 0 (List.replicate 12 false) =
        PollOutcome.deadlineExceeded (check_max 1) :=
  ⟨Nat.le_refl 1,
   (poll_loop_deadline_exactly 1 (List.replicate 12 false) (Nat.le_refl 1)).2
     (by decide) (by decide)⟩

end AiHorde
